import Mathlib

/-!
Verification of the data-cleaning module `life_expectancy/cleaning.py`.

The function under study is `clean_data(df, country_code)`, which

1. melts the wide table into long format, one row per
   (identifier, year-column) pair, stacking value columns one after the
   other in column order (pandas `DataFrame.melt`);
2. splits the composite identifier on commas into the four columns
   `unit, sex, age, region` (pandas `str.split(",", expand=True)` followed
   by an assignment of exactly four column names, then
   `astype(str).str.strip()` on every part);
3. extracts the first run of four consecutive digits from each year
   header and converts it to an integer (`str.extract` with pattern
   four digits, then `astype(int)`, which fails on any non-match);
4. extracts from the string form of each cell the first occurrence of a
   signed decimal number (`str.extract` with a search pattern of optional
   sign, digits, optional dot-digits) and coerces it to a number, with
   non-matches becoming missing values;
5. drops rows whose value is missing, filters rows whose `region` equals
   `country_code`, and projects the six columns
   `unit, sex, age, region, year, value`.

The embedding below mirrors each of those steps.  Cells are
`Option String` (missing cells are `none`, which pandas `astype(str)`
renders as the text "nan"); numbers are exact rationals; failure of the
whole pipeline (the exceptions pandas raises in steps 2 and 3) is
modelled by `Option`, the result being `none`.
-/

namespace LifeExp

/-- A raw cell of the wide table: textual content, or `none` for a
missing value (NaN). -/
abbrev Cell := Option String

/-- The string form of a cell, as produced by pandas `astype(str)`:
a missing cell (NaN) renders as the text "nan"
(`cleaning.py` line 45). -/
def cellStr : Cell → String
  | some s => s
  | none => "nan"

/-- The wide-format input table: the first column holds the composite
identifier string of each row, every remaining column is a year column.
`rows` pairs each identifier with its list of year cells, aligned with
`yearHeaders` by position. -/
structure RawTable where
  idHeader : String
  yearHeaders : List String
  rows : List (String × List Cell)

/-- An exact decimal number `num / 10 ^ exp`, the result of parsing a
decimal literal such as "15.6" (as `⟨156, 1⟩`).  The reference code
stores a floating-point number; the embedding keeps the parsed decimal
exactly. -/
structure DecNum where
  num : Int
  exp : Nat
deriving DecidableEq

/-- The rational number denoted by a parsed decimal. -/
def DecNum.toRat (d : DecNum) : ℚ := (d.num : ℚ) / (10 : ℚ) ^ d.exp

/-- One row of the long dataframe after decomposition and coercion:
the four identifier fields, the coerced year, and the extracted value
(`none` when numeric extraction failed, before the dropna step). -/
structure PreRow where
  unit : String
  sex : String
  age : String
  region : String
  year : Nat
  value : Option DecNum
deriving DecidableEq

/-- The output dataframe: its column list and its rows. -/
structure CleanTable where
  columns : List String
  rows : List PreRow
deriving DecidableEq

/-- The fixed projection of `cleaning.py` line 54. -/
def sixColumns : List String := ["unit", "sex", "age", "region", "year", "value"]

/-- Pandas `df.melt(id_vars=[id_col], var_name="year", value_name="value")`
(`cleaning.py` line 32): one long row per (identifier, year column)
pair, stacking the value columns one after the other in column order,
each carrying all input rows in order. -/
def meltRows (df : RawTable) : List (String × String × Cell) :=
  df.yearHeaders.enum.flatMap fun jh =>
    df.rows.map fun r => (r.1, jh.2, r.2.getD jh.1 none)

/-- Splitting a character list on the comma character, with Python
`str.split(",")` semantics: the empty string yields one empty part,
and a trailing comma yields a trailing empty part. -/
def splitComma : List Char → List (List Char)
  | [] => [[]]
  | c :: rest =>
    if c = ',' then [] :: splitComma rest
    else
      match splitComma rest with
      | [] => [[c]]
      | p :: ps => (c :: p) :: ps

/-- Python `s.split(",")` (`cleaning.py` line 35). -/
def parts (s : String) : List String := (splitComma s.toList).map String.mk

/-- Python `str.strip()` on a character list: leading and trailing
whitespace removed. -/
def trimChars (l : List Char) : List Char :=
  ((l.dropWhile Char.isWhitespace).reverse.dropWhile Char.isWhitespace).reverse

/-- Python `str.strip()` (`cleaning.py` line 37). -/
def trimStr (s : String) : String := String.mk (trimChars s.toList)

/-- The number of columns produced by
`str.split(",", expand=True)` over a series: the maximum part count
over all rows (0 on an empty series).  The assignment
`split_cols.columns = ["unit", "sex", "age", "region"]` on line 36
raises unless this is exactly 4. -/
def maxParts (l : List (String × String × Cell)) : Nat :=
  (l.map fun r => (parts r.1).length).foldr max 0

/-- The four identifier fields of one row, given that the expanded
split has exactly four columns: the comma-separated parts, padded on
the right with pandas `None` cells, which `astype(str).str.strip()`
(line 37) renders as the text "None"; every part is whitespace
trimmed. -/
def splitFields (s : String) : List String :=
  (((parts s).map trimStr) ++ List.replicate 4 "None").take 4

/-- The numeric value of a list of decimal digit characters. -/
def digitsVal (ds : List Char) : Nat :=
  ds.foldl (fun a c => 10 * a + (c.toNat - 48)) 0

/-- The regex `[-+]?\d+(?:\.\d+)?` matched at the start of `rest`,
after an already-consumed sign `sign`: a maximal nonempty digit run,
optionally followed by a dot and a maximal nonempty digit run, parsed
as an exact decimal. -/
def numCore (sign : Int) (rest : List Char) : Option DecNum :=
  let ds := rest.takeWhile Char.isDigit
  if ds = [] then none
  else
    match rest.dropWhile Char.isDigit with
    | '.' :: r2 =>
        let fs := r2.takeWhile Char.isDigit
        if fs = [] then some ⟨sign * digitsVal ds, 0⟩
        else some ⟨sign * (digitsVal ds * 10 ^ fs.length + digitsVal fs), fs.length⟩
    | _ => some ⟨sign * digitsVal ds, 0⟩

/-- The regex `[-+]?\d+(?:\.\d+)?` anchored at the start of `cs`
(one candidate match position of `re.search`). -/
def numAt : List Char → Option DecNum
  | '-' :: r => numCore (-1) r
  | '+' :: r => numCore 1 r
  | cs => numCore 1 cs

/-- Python `re.search` semantics: try the pattern matcher `g` at each
position from the left and return the first success. -/
def scan1 (g : List Char → Option α) : List Char → Option α
  | [] => none
  | c :: rest =>
    match g (c :: rest) with
    | some y => some y
    | none => scan1 g rest

/-- Pandas `str.extract(r"([-+]?\d+(?:\.\d+)?)")` on one cell string
(`cleaning.py` lines 45-47): the first occurrence, anywhere in the
string, of a signed decimal number. -/
def searchNum (cs : List Char) : Option DecNum := scan1 numAt cs

/-- Four consecutive decimal digits at the start of the list, parsed
as a number (one candidate position of `str.extract(r"(\d{4})")`). -/
def run4 : List Char → Option Nat
  | a :: b :: c :: d :: _ =>
    if a.isDigit && b.isDigit && c.isDigit && d.isDigit then
      some (digitsVal [a, b, c, d])
    else none
  | _ => none

/-- Pandas `str.extract(r"(\d{4})")` on one year header (`cleaning.py`
line 42): the first run of four consecutive digits, parsed as an
integer. -/
def findYear4 (cs : List Char) : Option Nat := scan1 run4 cs

/-- One melted row carried through decomposition (line 35-39), year
coercion (line 42) and value extraction (lines 45-48).  Returns `none`
when the year header has no four-digit run, which makes
`astype(int)` raise on the whole column. -/
def toPreRow (r : String × String × Cell) : Option PreRow :=
  match findYear4 r.2.1.toList with
  | none => none
  | some y =>
      let f := splitFields r.1
      some { unit := f.getD 0 "", sex := f.getD 1 "", age := f.getD 2 "",
             region := f.getD 3 "", year := y,
             value := searchNum (cellStr r.2.2).toList }

/-- Map a fallible function over a list, failing if any element fails
(the behaviour of a whole-column pandas conversion such as
`astype(int)`). -/
def optionMap (f : α → Option β) : List α → Option (List β)
  | [] => some []
  | a :: l =>
    match f a, optionMap f l with
    | some b, some bs => some (b :: bs)
    | _, _ => none

/-- The decomposed and coerced long dataframe (`cleaning.py` lines
32-48): `none` when the identifier split does not expand to exactly
four columns, or when some year header lacks a four-digit run. -/
def preRows (df : RawTable) : Option (List PreRow) :=
  if maxParts (meltRows df) = 4 then optionMap toPreRow (meltRows df) else none

/-- The function `clean_data(df, country_code)` (`cleaning.py` lines 28-54):
the decomposed long rows with missing values dropped (line 50, dropna),
filtered to the requested region (line 52), projected onto the six
output columns (line 54).  `none` models the exceptions raised on
malformed identifier splits or year headers. -/
def clean_data (df : RawTable) (country_code : String) : Option CleanTable :=
  (preRows df).map fun pre =>
    { columns := sixColumns,
      rows := (pre.filter fun p => p.value.isSome).filter
                fun p => p.region == country_code }

/-! ## Helper lemmas -/

theorem scan1_cons (g : List Char → Option α) (c : Char) (rest : List Char) :
    scan1 g (c :: rest) =
      match g (c :: rest) with
      | some y => some y
      | none => scan1 g rest := rfl

theorem scan1_eq_none {g : List Char → Option α} (hg : g [] = none)
    (l : List Char) : scan1 g l = none ↔ ∀ i, g (l.drop i) = none := by
  induction l with
  | nil =>
    constructor
    · intro _ i
      simpa using hg
    · intro _
      rfl
  | cons c l ih =>
    rw [scan1_cons]
    cases hc : g (c :: l) with
    | some y =>
      constructor
      · intro h; cases h
      · intro h
        have h0 := h 0
        rw [List.drop_zero] at h0
        rw [h0] at hc
        cases hc
    | none =>
      rw [ih]
      constructor
      · intro h i
        cases i with
        | zero => simpa using hc
        | succ k => simpa using h k
      · intro h i
        have := h (i + 1)
        simpa using this

theorem scan1_eq_some {g : List Char → Option α} :
    ∀ {l : List Char} {y : α}, scan1 g l = some y →
      ∃ i, g (l.drop i) = some y ∧ ∀ j, j < i → g (l.drop j) = none := by
  intro l
  induction l with
  | nil => intro y h; cases h
  | cons c l ih =>
    intro y h
    rw [scan1_cons] at h
    cases hc : g (c :: l) with
    | some z =>
      rw [hc] at h
      cases h
      exact ⟨0, by simpa using hc, fun j hj => absurd hj (Nat.not_lt_zero j)⟩
    | none =>
      rw [hc] at h
      obtain ⟨i, hi, hlt⟩ := ih h
      refine ⟨i + 1, by simpa using hi, ?_⟩
      intro j hj
      cases j with
      | zero => simpa using hc
      | succ k => simpa using hlt k (by omega)

theorem optionMap_forall2 {f : α → Option β} :
    ∀ {l : List α} {l2 : List β}, optionMap f l = some l2 →
      List.Forall₂ (fun a b => f a = some b) l l2 := by
  intro l
  induction l with
  | nil =>
    intro l2 h
    simp only [optionMap, Option.some.injEq] at h
    subst h
    exact List.Forall₂.nil
  | cons a l ih =>
    intro l2 h
    simp only [optionMap] at h
    cases hfa : f a with
    | none => rw [hfa] at h; cases h
    | some b =>
      rw [hfa] at h
      cases hrest : optionMap f l with
      | none => rw [hrest] at h; cases h
      | some bs =>
        rw [hrest] at h
        simp only [Option.some.injEq] at h
        subst h
        exact List.Forall₂.cons hfa (ih hrest)

theorem optionMap_eq_none_of_mem {f : α → Option β} {l : List α} {a : α}
    (ha : a ∈ l) (hfa : f a = none) : optionMap f l = none := by
  induction l with
  | nil => cases ha
  | cons b l ih =>
    rcases List.mem_cons.mp ha with h | h
    · subst h
      simp only [optionMap]
      rw [hfa]
    · have h2 := ih h
      simp only [optionMap]
      rw [h2]
      cases f b <;> rfl

theorem sum_map_const_nat (l : List α) (n : Nat) :
    (l.map fun _ => n).sum = l.length * n := by
  induction l with
  | nil => simp
  | cons a l ih =>
    simp only [List.map_cons, List.sum_cons, List.length_cons, ih]
    ring

theorem meltRows_length (df : RawTable) :
    (meltRows df).length = df.yearHeaders.length * df.rows.length := by
  unfold meltRows
  rw [List.length_flatMap]
  have h0 : (List.length ∘ fun jh : Nat × String =>
        df.rows.map fun r => (r.1, jh.2, r.2.getD jh.1 none))
      = fun _ => df.rows.length := by
    funext jh
    simp
  rw [h0, List.map_const', List.enum_length, List.sum_replicate, smul_eq_mul]

theorem length_filter_filter_eq_iff (l : List α) (p q : α → Bool) :
    ((l.filter p).filter q).length = l.length ↔ ∀ a ∈ l, p a ∧ q a := by
  constructor
  · intro h a ha
    have hsub : ((l.filter p).filter q).Sublist l :=
      ((l.filter p).filter_sublist).trans (l.filter_sublist)
    have heq : (l.filter p).filter q = l := hsub.eq_of_length h
    have hmem : a ∈ (l.filter p).filter q := by rw [heq]; exact ha
    have h1 := List.mem_filter.mp hmem
    have h2 := List.mem_filter.mp h1.1
    exact ⟨h2.2, h1.2⟩
  · intro h
    have h1 : l.filter p = l :=
      List.filter_eq_self.mpr fun a ha => (h a ha).1
    rw [h1]
    rw [List.filter_eq_self.mpr fun a ha => (h a ha).2]

theorem optionMap_length {f : α → Option β} {l : List α} {l2 : List β}
    (h : optionMap f l = some l2) : l2.length = l.length :=
  ((optionMap_forall2 h).length_eq).symm

/-- Unpack a successful run of `clean_data` into the decomposed rows
and the shape of the result. -/
theorem clean_data_some {df : RawTable} {code : String} {t : CleanTable}
    (h : clean_data df code = some t) :
    ∃ pre, preRows df = some pre ∧
      t = { columns := sixColumns,
            rows := (pre.filter fun p => p.value.isSome).filter
                      fun p => p.region == code } := by
  unfold clean_data at h
  rw [Option.map_eq_some'] at h
  obtain ⟨pre, hpre, ht⟩ := h
  exact ⟨pre, hpre, ht.symm⟩

/-- Extract the underlying decomposed-row computation from a
successful `preRows`. -/
theorem optionMap_of_preRows {df : RawTable} {pre : List PreRow}
    (hpre : preRows df = some pre) :
    optionMap toPreRow (meltRows df) = some pre := by
  unfold preRows at hpre
  by_cases hmp : maxParts (meltRows df) = 4
  · rw [if_pos hmp] at hpre
    exact hpre
  · rw [if_neg hmp] at hpre
    cases hpre

/-! ## Claims -/

/-- C1: for every input table and every region code, every row of the
table returned by clean_data has its region field equal to the
requested region code, under exact case-sensitive string equality (the
field was whitespace-trimmed upstream, when the composite identifier
was decomposed). -/
theorem C1_region_invariant (df : RawTable) (code : String) (t : CleanTable)
    (h : clean_data df code = some t) : ∀ r ∈ t.rows, r.region = code := by
  obtain ⟨pre, hpre, ht⟩ := clean_data_some h
  subst ht
  intro r hr
  have h2 := (List.mem_filter.mp hr).2
  simpa using h2

/-- Witness for C1 at a concrete table with one matching row. -/
theorem C1_region_invariant_witness :
    ({ unit := "a", sex := "b", age := "c", region := "PT", year := 2010,
       value := some ⟨1, 0⟩ } : PreRow).region = "PT" :=
  C1_region_invariant ⟨"geo", ["2010"], [("a,b,c,PT", [some "1"])]⟩ "PT"
    { columns := sixColumns,
      rows := [{ unit := "a", sex := "b", age := "c", region := "PT",
                 year := 2010, value := some ⟨1, 0⟩ }] }
    (by decide)
    { unit := "a", sex := "b", age := "c", region := "PT", year := 2010,
      value := some ⟨1, 0⟩ }
    (by decide)

/-- C2: every row of the table returned by clean_data carries an
extracted numeric value, modelled as an exact parsed decimal, never a
missing value: rows whose cell failed numeric extraction (such as the
placeholder ":") were removed by the dropna step and never appear with
a missing value. -/
theorem C2_value_total (df : RawTable) (code : String) (t : CleanTable)
    (h : clean_data df code = some t) :
    ∀ r ∈ t.rows, ∃ d : DecNum, r.value = some d := by
  obtain ⟨pre, hpre, ht⟩ := clean_data_some h
  subst ht
  intro r hr
  have h1 := List.mem_filter.mp (List.mem_filter.mp hr).1
  have h2 : r.value.isSome := by simpa using h1.2
  exact ⟨r.value.get h2, (Option.some_get h2).symm⟩

/-- Witness for C2 at a concrete table with one kept row. -/
theorem C2_value_total_witness :
    ∃ d : DecNum,
      ({ unit := "a", sex := "b", age := "c", region := "PT", year := 2010,
         value := some ⟨1, 0⟩ } : PreRow).value = some d :=
  C2_value_total ⟨"geo", ["2010"], [("a,b,c,PT", [some "1"])]⟩ "PT"
    { columns := sixColumns,
      rows := [{ unit := "a", sex := "b", age := "c", region := "PT",
                 year := 2010, value := some ⟨1, 0⟩ }] }
    (by decide)
    { unit := "a", sex := "b", age := "c", region := "PT", year := 2010,
      value := some ⟨1, 0⟩ }
    (by decide)

/-- C5: for every input table and region code, the table returned by
clean_data has exactly the six columns unit, sex, age, region, year,
value, in that order. -/
theorem C5_column_contract (df : RawTable) (code : String) (t : CleanTable)
    (h : clean_data df code = some t) :
    t.columns = ["unit", "sex", "age", "region", "year", "value"] := by
  obtain ⟨pre, hpre, ht⟩ := clean_data_some h
  subst ht
  rfl

/-- Witness for C5 at a concrete table whose result has zero rows. -/
theorem C5_column_contract_witness :
    ({ columns := sixColumns, rows := [] } : CleanTable).columns
      = ["unit", "sex", "age", "region", "year", "value"] :=
  C5_column_contract ⟨"geo", ["2010"], [("a,b,c,DE", [some "1"])]⟩ "PT"
    { columns := sixColumns, rows := [] } (by decide)

/-- C9: clean_data performs no validation of the region code: whether
it fails is independent of the requested code, and a code occurring in
no decomposed row yields a zero-row but well-formed table that still
has the six contracted columns. -/
theorem C9_no_region_validation :
    (∀ (df : RawTable) (c1 c2 : String),
        (clean_data df c1).isSome = (clean_data df c2).isSome) ∧
    (∀ (df : RawTable) (code : String) (pre : List PreRow) (t : CleanTable),
        preRows df = some pre → clean_data df code = some t →
        (∀ p ∈ pre, p.region ≠ code) →
        t.rows = [] ∧ t.columns = sixColumns) := by
  constructor
  · intro df c1 c2
    unfold clean_data
    rw [Option.isSome_map', Option.isSome_map']
  · intro df code pre t hpre h hnone
    obtain ⟨pre2, hpre2, ht⟩ := clean_data_some h
    rw [hpre] at hpre2
    injection hpre2 with hpre2
    subst hpre2
    subst ht
    refine ⟨?_, rfl⟩
    apply List.filter_eq_nil_iff.mpr
    intro a ha
    have hmem := (List.mem_filter.mp ha).1
    have hne := hnone a hmem
    simpa using hne

/-- Witness for C9: requesting PT or FR on a DE-only table succeeds
either way, and the PT request yields the empty well-formed table. -/
theorem C9_no_region_validation_witness :
    ((clean_data ⟨"geo", ["2010"], [("a,b,c,DE", [some "1"])]⟩ "PT").isSome
        = (clean_data ⟨"geo", ["2010"], [("a,b,c,DE", [some "1"])]⟩ "FR").isSome) ∧
    (({ columns := sixColumns, rows := [] } : CleanTable).rows = [] ∧
      ({ columns := sixColumns, rows := [] } : CleanTable).columns = sixColumns) :=
  ⟨C9_no_region_validation.1 ⟨"geo", ["2010"], [("a,b,c,DE", [some "1"])]⟩ "PT" "FR",
   C9_no_region_validation.2 ⟨"geo", ["2010"], [("a,b,c,DE", [some "1"])]⟩ "PT"
     [{ unit := "a", sex := "b", age := "c", region := "DE", year := 2010,
        value := some ⟨1, 0⟩ }]
     { columns := sixColumns, rows := [] }
     (by decide) (by decide) (by decide)⟩

/-- C3 counterexample: the cell "p 15.6" has no signed decimal prefix
at the start of its string (the anchored matcher numAt fails on it),
so under the claim the row would be dropped; clean_data instead keeps
the row with value 15.6, because extraction searches the whole string
for the first match rather than requiring a leading prefix. -/
theorem C3_counterexample :
    numAt "p 15.6".toList = none ∧
    ¬ ∀ t : CleanTable,
        clean_data ⟨"geo", ["2015"], [("a,b,c,PT", [some "p 15.6"])]⟩ "PT"
            = some t →
          t.rows = [] := by
  refine ⟨by decide, fun h => ?_⟩
  exact absurd
    (h { columns := sixColumns,
         rows := [{ unit := "a", sex := "b", age := "c", region := "PT",
                    year := 2015, value := some ⟨156, 1⟩ }] }
       (by decide))
    (by decide)

/-- C3 (amended): the value of every decomposed row is produced by
applying searchNum to the string form of its raw cell; searchNum is
the first occurrence anywhere in the string (not an anchored leading
prefix) of a signed decimal number: it fails exactly when no position
of the string starts such a number, and on success it returns the
anchored match numAt at the earliest matching position.  Rows whose
extraction fails are the ones subsequently dropped. -/
theorem C3_value_extraction_search :
    (∀ (r : String × String × Cell) (p : PreRow), toPreRow r = some p →
        p.value = searchNum (cellStr r.2.2).toList) ∧
    (∀ s : String,
        searchNum s.toList = none ↔ ∀ i, numAt (s.toList.drop i) = none) ∧
    (∀ (s : String) (d : DecNum), searchNum s.toList = some d →
        ∃ i, numAt (s.toList.drop i) = some d ∧
          ∀ j, j < i → numAt (s.toList.drop j) = none) := by
  refine ⟨?_, ?_, ?_⟩
  · intro r p h
    simp only [toPreRow] at h
    cases hfy : findYear4 r.2.1.toList with
    | none => rw [hfy] at h; cases h
    | some y => rw [hfy] at h; cases h; rfl
  · intro s
    exact scan1_eq_none rfl s.toList
  · intro s d h
    exact scan1_eq_some h

/-- Witness for C3 (amended) at the flagged cell "p 15.6". -/
theorem C3_value_extraction_search_witness :
    (({ unit := "a", sex := "b", age := "c", region := "PT", year := 2015,
        value := some ⟨156, 1⟩ } : PreRow).value
        = searchNum (cellStr (some "p 15.6")).toList) ∧
    ∃ i, numAt ("p 15.6".toList.drop i) = some ⟨156, 1⟩ ∧
      ∀ j, j < i → numAt ("p 15.6".toList.drop j) = none :=
  ⟨C3_value_extraction_search.1 ("a,b,c,PT", "2015", some "p 15.6")
     { unit := "a", sex := "b", age := "c", region := "PT", year := 2015,
       value := some ⟨156, 1⟩ } (by decide),
   C3_value_extraction_search.2.2 "p 15.6" ⟨156, 1⟩ (by decide)⟩

/-- C4 counterexample: an identifier with five comma-separated parts
makes clean_data fail (pandas raises when the four column names are
assigned to the five-column expanded split), rather than discarding
the parts beyond four and succeeding as the claim states. -/
theorem C4_counterexample :
    clean_data ⟨"geo", ["2010"], [("a,b,c,d,e", [some "1"])]⟩ "d" = none := by
  decide

/-- C4 (amended): when the maximum comma-part count over the melted
rows differs from four, clean_data raises (modelled as none); when it
is exactly four, a row with fewer parts keeps its trimmed parts in
order and its missing trailing fields become the string "None" (the
pandas astype(str) rendering of the padding cells), not empty or
absent fields. -/
theorem C4_split_behaviour :
    (∀ (df : RawTable) (code : String),
        maxParts (meltRows df) ≠ 4 → clean_data df code = none) ∧
    (∀ s : String, (parts s).length ≤ 4 →
        splitFields s = (parts s).map trimStr
            ++ List.replicate (4 - (parts s).length) "None") := by
  constructor
  · intro df code h
    unfold clean_data preRows
    rw [if_neg h]
    rfl
  · intro s h
    unfold splitFields
    rw [List.take_append_eq_append_take,
      List.take_of_length_le (by simpa using h), List.take_replicate]
    have h2 : (4 - ((parts s).map trimStr).length) ⊓ 4 = 4 - (parts s).length := by
      simp only [List.length_map]
      omega
    rw [h2]

/-- Witness for C4 (amended): a two-part identifier errors as input,
and its split pads the two missing fields with the text "None". -/
theorem C4_split_behaviour_witness :
    clean_data ⟨"geo", ["2010"], [("a,b", [some "1"])]⟩ "a" = none ∧
    splitFields "a,b" = (parts "a,b").map trimStr
        ++ List.replicate (4 - (parts "a,b").length) "None" :=
  ⟨C4_split_behaviour.1 ⟨"geo", ["2010"], [("a,b", [some "1"])]⟩ "a" (by decide),
   C4_split_behaviour.2 "a,b" (by decide)⟩

/-- C6: for an input table with R rows and Y year columns whose
decomposition succeeded, the table returned by clean_data has at most
R * Y rows, with equality exactly when every cell yielded a parseable
numeric value and every decomposed row has the requested region. -/
theorem C6_row_count (df : RawTable) (code : String) (pre : List PreRow)
    (t : CleanTable) (hpre : preRows df = some pre)
    (h : clean_data df code = some t) :
    t.rows.length ≤ df.rows.length * df.yearHeaders.length ∧
    (t.rows.length = df.rows.length * df.yearHeaders.length ↔
      ∀ p ∈ pre, p.value.isSome ∧ p.region = code) := by
  obtain ⟨pre2, hpre2, ht⟩ := clean_data_some h
  rw [hpre] at hpre2
  injection hpre2 with hpre2
  subst hpre2
  subst ht
  dsimp only
  have hlen : pre.length = df.rows.length * df.yearHeaders.length := by
    rw [optionMap_length (optionMap_of_preRows hpre), meltRows_length]
    ring
  constructor
  · have hs : (((pre.filter fun p => p.value.isSome).filter
        fun p => p.region == code)).Sublist pre :=
      (List.filter_sublist _).trans (List.filter_sublist _)
    have hle := hs.length_le
    omega
  · rw [← hlen, length_filter_filter_eq_iff]
    constructor
    · intro hall p hp
      obtain ⟨h1, h2⟩ := hall p hp
      exact ⟨h1, by simpa using h2⟩
    · intro hall p hp
      obtain ⟨h1, h2⟩ := hall p hp
      exact ⟨h1, by simpa using h2⟩

/-- Witness for C6 at a one-row, one-year table where every cell
parses and every row matches, so the count bound is tight. -/
theorem C6_row_count_witness :
    ({ columns := sixColumns,
       rows := [{ unit := "a", sex := "b", age := "c", region := "PT",
                  year := 2010, value := some ⟨1, 0⟩ }] } : CleanTable).rows.length
        ≤ (RawTable.mk "geo" ["2010"] [("a,b,c,PT", [some "1"])]).rows.length
            * (RawTable.mk "geo" ["2010"] [("a,b,c,PT", [some "1"])]).yearHeaders.length ∧
    (({ columns := sixColumns,
        rows := [{ unit := "a", sex := "b", age := "c", region := "PT",
                   year := 2010, value := some ⟨1, 0⟩ }] } : CleanTable).rows.length
        = (RawTable.mk "geo" ["2010"] [("a,b,c,PT", [some "1"])]).rows.length
            * (RawTable.mk "geo" ["2010"] [("a,b,c,PT", [some "1"])]).yearHeaders.length ↔
      ∀ p ∈ [({ unit := "a", sex := "b", age := "c", region := "PT",
                year := 2010, value := some ⟨1, 0⟩ } : PreRow)],
        p.value.isSome ∧ p.region = "PT") :=
  C6_row_count (RawTable.mk "geo" ["2010"] [("a,b,c,PT", [some "1"])]) "PT"
    [{ unit := "a", sex := "b", age := "c", region := "PT", year := 2010,
       value := some ⟨1, 0⟩ }]
    { columns := sixColumns,
      rows := [{ unit := "a", sex := "b", age := "c", region := "PT",
                 year := 2010, value := some ⟨1, 0⟩ }] }
    (by decide) (by decide)

/-- C7 counterexample: with two identifiers and two year columns, all
cells parseable and all regions matching, identifier-major order would
list both rows of the first identifier before any row of the second
(units a, a, d, d); clean_data instead interleaves them, because the
melt step stacks the year columns one after the other. -/
theorem C7_counterexample :
    ¬ ∀ t : CleanTable,
        clean_data ⟨"geo", ["2010", "2011"],
            [("a,b,c,PT", [some "1", some "2"]),
             ("d,e,f,PT", [some "3", some "4"])]⟩ "PT" = some t →
          t.rows.map (fun p => p.unit) = ["a", "a", "d", "d"] := by
  intro h
  exact absurd
    (h { columns := sixColumns,
         rows := [{ unit := "a", sex := "b", age := "c", region := "PT",
                    year := 2010, value := some ⟨1, 0⟩ },
                  { unit := "d", sex := "e", age := "f", region := "PT",
                    year := 2010, value := some ⟨3, 0⟩ },
                  { unit := "a", sex := "b", age := "c", region := "PT",
                    year := 2011, value := some ⟨2, 0⟩ },
                  { unit := "d", sex := "e", age := "f", region := "PT",
                    year := 2011, value := some ⟨4, 0⟩ }] }
       (by decide))
    (by decide)

/-- C7 (amended): the rows of the output appear in the order produced
by the unpivot step, which is year-column-major and identifier-minor
(meltRows stacks, for each year column in order, all identifiers in
input row order); the decomposed rows correspond to the melted rows
one-to-one and in order, and the dropping and filtering steps only
remove rows, so the output is a sublist of the decomposed rows and
preserves their relative order. -/
theorem C7_row_order (df : RawTable) (code : String) (pre : List PreRow)
    (t : CleanTable) (hpre : preRows df = some pre)
    (h : clean_data df code = some t) :
    List.Forall₂ (fun r p => toPreRow r = some p) (meltRows df) pre ∧
    t.rows.Sublist pre := by
  refine ⟨optionMap_forall2 (optionMap_of_preRows hpre), ?_⟩
  obtain ⟨pre2, hpre2, ht⟩ := clean_data_some h
  rw [hpre] at hpre2
  injection hpre2 with hpre2
  subst hpre2
  subst ht
  exact (List.filter_sublist _).trans (List.filter_sublist _)

/-- Witness for C7 (amended) at a one-row, one-year table. -/
theorem C7_row_order_witness :
    List.Forall₂ (fun r p => toPreRow r = some p)
      (meltRows (RawTable.mk "geo" ["2010"] [("a,b,c,PT", [some "1"])]))
      [{ unit := "a", sex := "b", age := "c", region := "PT", year := 2010,
         value := some ⟨1, 0⟩ }] ∧
    (({ columns := sixColumns,
        rows := [{ unit := "a", sex := "b", age := "c", region := "PT",
                   year := 2010, value := some ⟨1, 0⟩ }] } : CleanTable).rows).Sublist
      [{ unit := "a", sex := "b", age := "c", region := "PT", year := 2010,
         value := some ⟨1, 0⟩ }] :=
  C7_row_order (RawTable.mk "geo" ["2010"] [("a,b,c,PT", [some "1"])]) "PT"
    [{ unit := "a", sex := "b", age := "c", region := "PT", year := 2010,
       value := some ⟨1, 0⟩ }]
    { columns := sixColumns,
      rows := [{ unit := "a", sex := "b", age := "c", region := "PT",
                 year := 2010, value := some ⟨1, 0⟩ }] }
    (by decide) (by decide)

/-- C8: the year field of every decomposed row is the integer parsed
from the first run of four consecutive digits in its year-column
header (findYear4 succeeds at the earliest matching position, with
every earlier position failing), and if any melted row has a header
with no four-digit run, clean_data fails (the whole-column astype(int)
raises and the error propagates) rather than producing output. -/
theorem C8_year_extraction :
    (∀ (df : RawTable) (code : String),
        (∃ r ∈ meltRows df, findYear4 r.2.1.toList = none) →
        clean_data df code = none) ∧
    (∀ (r : String × String × Cell) (p : PreRow), toPreRow r = some p →
        findYear4 r.2.1.toList = some p.year) ∧
    (∀ (l : List Char) (y : Nat), findYear4 l = some y →
        ∃ i, run4 (l.drop i) = some y ∧ ∀ j, j < i → run4 (l.drop j) = none) := by
  refine ⟨?_, ?_, ?_⟩
  · rintro df code ⟨r, hr, hnone⟩
    have htp : toPreRow r = none := by
      simp only [toPreRow]
      rw [hnone]
    have homap : optionMap toPreRow (meltRows df) = none :=
      optionMap_eq_none_of_mem hr htp
    unfold clean_data preRows
    by_cases hmp : maxParts (meltRows df) = 4
    · rw [if_pos hmp, homap]
      rfl
    · rw [if_neg hmp]
      rfl
  · intro r p h
    simp only [toPreRow] at h
    cases hfy : findYear4 r.2.1.toList with
    | none => rw [hfy] at h; cases h
    | some y => rw [hfy] at h; cases h; rfl
  · intro l y h
    exact scan1_eq_some h

/-- Witness for C8: a table with header "noyr" errors; the header
"2010" yields year 2010; in "x2015y" the run starts at position 1. -/
theorem C8_year_extraction_witness :
    clean_data ⟨"geo", ["noyr"], [("a,b,c,PT", [some "1"])]⟩ "PT" = none ∧
    findYear4 ("2010" : String).toList
      = some (({ unit := "a", sex := "b", age := "c", region := "PT",
                 year := 2010, value := some ⟨1, 0⟩ } : PreRow).year) ∧
    ∃ i, run4 ("x2015y".toList.drop i) = some 2015 ∧
      ∀ j, j < i → run4 ("x2015y".toList.drop j) = none :=
  ⟨C8_year_extraction.1 ⟨"geo", ["noyr"], [("a,b,c,PT", [some "1"])]⟩ "PT"
     (by decide),
   C8_year_extraction.2.1 ("a,b,c,PT", "2010", some "1")
     { unit := "a", sex := "b", age := "c", region := "PT", year := 2010,
       value := some ⟨1, 0⟩ } (by decide),
   C8_year_extraction.2.2 "x2015y".toList 2015 (by decide)⟩

/-- C10: a missing (NaN) cell is coerced by astype(str) to the text
"nan", which contains no digits and so matches no numeric pattern;
the decomposed row therefore has a missing value, and no row with a
missing value ever reaches the output: the pair is dropped exactly
like a placeholder-token cell. -/
theorem C10_nan_cells_dropped :
    cellStr none = "nan" ∧
    searchNum ("nan" : String).toList = none ∧
    (∀ (idv hdr : String) (p : PreRow),
        toPreRow (idv, hdr, (none : Cell)) = some p → p.value = none) ∧
    (∀ (df : RawTable) (code : String) (t : CleanTable),
        clean_data df code = some t → ∀ p : PreRow, p.value = none →
          p ∉ t.rows) := by
  refine ⟨rfl, by decide, ?_, ?_⟩
  · intro idv hdr p hp
    simp only [toPreRow] at hp
    cases hfy : findYear4 hdr.toList with
    | none => rw [hfy] at hp; cases hp
    | some y =>
      rw [hfy] at hp
      cases hp
      show searchNum (cellStr (none : Cell)).toList = none
      decide
  · intro df code t h p hpv hmem
    obtain ⟨pre, hpre, ht⟩ := clean_data_some h
    subst ht
    have h1 := List.mem_filter.mp (List.mem_filter.mp hmem).1
    have h2 : p.value.isSome := by simpa using h1.2
    rw [hpv] at h2
    simp at h2

/-- Witness for C10: a NaN cell under a matching region yields the
empty output, and the decomposed row built from it has no value. -/
theorem C10_nan_cells_dropped_witness :
    ({ unit := "a", sex := "b", age := "c", region := "PT", year := 2010,
       value := none } : PreRow).value = none ∧
    ({ unit := "a", sex := "b", age := "c", region := "PT", year := 2010,
       value := none } : PreRow) ∉
      ({ columns := sixColumns, rows := [] } : CleanTable).rows :=
  ⟨C10_nan_cells_dropped.2.2.1 "a,b,c,PT" "2010"
     { unit := "a", sex := "b", age := "c", region := "PT", year := 2010,
       value := none } (by decide),
   C10_nan_cells_dropped.2.2.2 ⟨"geo", ["2010"], [("a,b,c,PT", [none])]⟩ "PT"
     { columns := sixColumns, rows := [] } (by decide)
     { unit := "a", sex := "b", age := "c", region := "PT", year := 2010,
       value := none } rfl⟩

end LifeExp
